import Mathlib

/-!
Verification of the climate-dashboard fetch/render pipeline.

This file gives a shallow embedding, in Lean 4, of the pure core of the
repository's Python code (`utils.py`, `data_fetchers.py`, `html_builder.py`)
and proves properties about it.

Modelling conventions, used throughout:
* Python exceptions are modelled with `Except PyErr`; a function that
  internally catches all exceptions is given a total type.
* The network is an oracle `Env.net : String → Except PyErr Response`
  (one entry per URL, standing for `requests.get`/`http_get`); gzip
  decompression and byte decoding are further oracle fields.
* Python floats are modelled as `PyFloat` (NaN, signed infinity, or a finite
  decimal `Dec`, an integer mantissa with a power-of-ten denominator; the
  data handled by the dashboard is decimal CSV text, so this is exact).
  Value equality and order on `Dec` are by cross multiplication; decimal
  formatting rounds half-up (Python rounds the underlying binary double,
  which agrees except on exact decimal ties).
* `pandas` dataframe cells are `Cell` values: a number, NaN (missing), or an
  uninterpreted string.  CSV fields are split on commas without quoting.
* Timeouts, chart drawing (`matplotlib`) and file writes are side effects
  with no influence on the returned records; they are not modelled, and the
  chart filename fields are kept.
-/

set_option autoImplicit false

namespace Climate

/-! ## Kernel-computable string primitives

Lean's built-in `String.trim`, `String.toLower`, `String.splitOn`, … do not
reduce well inside the kernel, so the Python string operations used by the
dashboard are modelled on `List Char` instead. -/

/-- The whitespace characters stripped by Python's `str.strip()`. -/
def isPySpace (c : Char) : Bool :=
  c == ' ' || c == '\t' || c == '\n' || c == '\r' || c == '\x0b' || c == '\x0c'

/-- ASCII lower-casing of one character (`str.lower()`; the dashboard only
compares ASCII prefixes). -/
def charLower (c : Char) : Char :=
  if 65 ≤ c.toNat && c.toNat ≤ 90 then Char.ofNat (c.toNat + 32) else c

/-- Python `str.lower()`. -/
def pyLower (s : String) : String := String.mk (s.data.map charLower)

/-- Python `str.strip()`. -/
def pyStrip (s : String) : String :=
  String.mk (((s.data.dropWhile isPySpace).reverse.dropWhile isPySpace).reverse)

/-- Python `str.startswith(p)`. -/
def pyStartsWith (s p : String) : Bool := p.data.isPrefixOf s.data

/-- Python `str.endswith(p)`. -/
def pyEndsWith (s p : String) : Bool := p.data.reverse.isPrefixOf s.data.reverse

/-- Split a character list at every occurrence of `sep`. -/
def splitChar (sep : Char) (cs : List Char) : List (List Char) :=
  cs.foldr
    (fun c acc =>
      if c == sep then [] :: acc else (c :: acc.headD []) :: acc.tailD [])
    [[]]

/-- Python `str.split(sep)` for a one-character separator (also the model of
`str.splitlines()`: every line feed in the repository's data is `"\n"`). -/
def pySplit (sep : Char) (s : String) : List String :=
  (splitChar sep s.data).map String.mk

/-- Test that `pat` occurs as a contiguous substring of `hay` (Python `in`). -/
def listContainsSub (hay pat : List Char) : Bool :=
  match hay with
  | [] => pat.isEmpty
  | _ :: t => pat.isPrefixOf hay || listContainsSub t pat

/-- Python `pat in s` substring test. -/
def strContainsSub (s pat : String) : Bool := listContainsSub s.data pat.data

/-- Python `str.zfill(len)` as used on the non-negative month counter
(left-pad with zeros). -/
def pyZfill (s : String) (len : ℕ) : String :=
  String.mk (List.replicate (len - s.data.length) '0') ++ s

/-- Python `sep.join(parts)`. -/
def pyJoinList (sep : String) (parts : List String) : String :=
  match parts with
  | [] => ""
  | p :: rest => rest.foldl (fun acc t => acc ++ sep ++ t) p

/-! ## Python scalar values -/

/-- A finite decimal number `m / 10 ^ e`.  Not normalised: use `Dec.veq` /
`Dec.ble` for Python's value comparison, never structural equality. -/
structure Dec where
  m : ℤ
  e : ℕ
deriving DecidableEq

/-- Value equality of two decimals (Python `==` on floats). -/
def Dec.veq (a b : Dec) : Bool :=
  a.m * 10 ^ b.e == b.m * 10 ^ a.e

/-- Value order on decimals (Python `<=` on floats). -/
def Dec.ble (a b : Dec) : Bool :=
  decide (a.m * 10 ^ b.e ≤ b.m * 10 ^ a.e)

/-- The rational value denoted by a decimal (specification only). -/
def Dec.val (a : Dec) : ℚ := (a.m : ℚ) / 10 ^ a.e

/-- A Python `float`: NaN, a signed infinity, or a finite decimal. -/
inductive PyFloat where
  | nan
  | inf (neg : Bool)
  | val (d : Dec)
deriving DecidableEq

/-- A Python scalar as it occurs in the dashboard's records: `None`, an
`int`, a `float`, or a `str`. -/
inductive PyVal where
  | none
  | int (n : ℤ)
  | float (x : PyFloat)
  | str (s : String)
deriving DecidableEq

/-- Value of a digit list, most significant first. -/
def digitsVal (ds : List Char) : ℕ :=
  ds.foldl (fun n c => n * 10 + (c.toNat - 48)) 0

/-- Parse an unsigned decimal literal `digits [. digits]` (at least one digit
overall), as accepted by Python's `float`.  Exponents and underscores are not
modelled. -/
def parseUnsignedFloat (cs : List Char) : Option Dec :=
  let ip := cs.takeWhile Char.isDigit
  let rest := cs.dropWhile Char.isDigit
  match rest with
  | [] => if ip.isEmpty then Option.none else some ⟨(digitsVal ip : ℤ), 0⟩
  | '.' :: fp =>
      if fp.all Char.isDigit && !(ip.isEmpty && fp.isEmpty) then
        some ⟨(digitsVal ip * 10 ^ fp.length + digitsVal fp : ℤ), fp.length⟩
      else Option.none
  | _ => Option.none

/-- Negate a decimal. -/
def Dec.neg (a : Dec) : Dec := ⟨-a.m, a.e⟩

/-- Model of Python's `float(str)` conversion: strip whitespace, optional
sign, then `nan`, `inf`/`infinity` (case-insensitive) or a decimal literal.
`Option.none` means the conversion raises `ValueError`. -/
def pyFloatOfString (s : String) : Option PyFloat :=
  let t := pyLower (pyStrip s)
  let signed : Bool × List Char :=
    match t.data with
    | '-' :: rest => (true, rest)
    | '+' :: rest => (false, rest)
    | cs => (false, cs)
  let neg := signed.1
  let u := signed.2
  if u = ['n', 'a', 'n'] then some PyFloat.nan
  else if u = ['i', 'n', 'f'] || u = ['i', 'n', 'f', 'i', 'n', 'i', 't', 'y'] then
    some (PyFloat.inf neg)
  else (parseUnsignedFloat u).map (fun d => PyFloat.val (if neg then d.neg else d))

/-- Left-pad a string with `'0'` up to length `len`. -/
def padZeros (s : String) (len : ℕ) : String :=
  String.mk (List.replicate (len - s.length) '0') ++ s

/-- Compute `round (v * 10 ^ nd)` for a decimal `v`, i.e. the integer of digits kept
by `f"{v:.{nd}f}"` (round half-up, see the module comment). -/
def decScaleRound (d : Dec) (nd : ℕ) : ℤ :=
  if d.e ≤ nd then d.m * 10 ^ (nd - d.e)
  else Int.fdiv (2 * d.m + 10 ^ (d.e - nd)) (2 * 10 ^ (d.e - nd))

/-- Render an integer `scaled` as `scaled / 10 ^ nd` with exactly `nd` digits
after the point. -/
def renderScaled (scaled : ℤ) (nd : ℕ) : String :=
  let sign := if scaled < 0 then "-" else ""
  let n := scaled.natAbs
  if nd = 0 then sign ++ toString n
  else sign ++ toString (n / 10 ^ nd) ++ "." ++ padZeros (toString (n % 10 ^ nd)) nd

/-- Fixed-point decimal rendering: the model of Python's `f"{x:.{nd}f}"` on a
finite float. -/
def formatFixed (d : Dec) (nd : ℕ) : String :=
  renderScaled (decScaleRound d nd) nd

/-- Render `f"{x:.{nd}f}"` of an arbitrary Python float. -/
def formatFloatFixed : PyFloat → ℕ → String
  | PyFloat.nan, _ => "nan"
  | PyFloat.inf neg, _ => if neg then "-inf" else "inf"
  | PyFloat.val d, nd => formatFixed d nd

/-- Drop trailing decimal zeros of `m / 10 ^ e`. -/
def decStrip : ℤ → ℕ → ℤ × ℕ
  | m, 0 => (m, 0)
  | m, e + 1 => if m % 10 == 0 then decStrip (m / 10) e else (m, e + 1)

/-- Model of Python's `str()` on a finite float: the shortest decimal
rendering, with at least one digit after the point. -/
def pyFloatRepr (d : Dec) : String :=
  let s := decStrip d.m d.e
  renderScaled (s.1 * 10 ^ (max 1 s.2 - s.2)) (max 1 s.2)

/-- Model of Python's `str()` on a scalar. -/
def pyValStr : PyVal → String
  | PyVal.none => "None"
  | PyVal.int n => toString n
  | PyVal.float PyFloat.nan => "nan"
  | PyVal.float (PyFloat.inf neg) => if neg then "-inf" else "inf"
  | PyVal.float (PyFloat.val d) => pyFloatRepr d
  | PyVal.str s => s

/-- The literal default string of `fmt_num` in `utils.py` (the file holds the
mojibake three-character sequence U+00E2 U+20AC U+201D). -/
def fmtNumDefault : String := "â€”"

/-- Model of `utils.fmt_num(val, nd, default)`:

```python
try:
    if val is None or (isinstance(val, float) and np.isnan(val)):
        return default
    if isinstance(val, (int, np.integer)):
        return f"{val}"
    return f"{float(val):.{nd}f}"
except Exception:
    return default
```

The `except` branch fires exactly when `float(val)` raises, i.e. when a
string argument is not convertible (`pyFloatOfString` returns none). -/
def fmt_num (val : PyVal) (nd : ℕ) (default : String) : String :=
  match val with
  | PyVal.none => default
  | PyVal.float PyFloat.nan => default
  | PyVal.int n => toString n
  | PyVal.float x => formatFloatFixed x nd
  | PyVal.str s =>
      match pyFloatOfString s with
      | Option.none => default
      | some x => formatFloatFixed x nd

/-! ## Transport: `http_get` oracle and `try_urls` (`utils.py`) -/

/-- One warning item of the Met Éireann JSON feed, as accessed by the code
(`w.get("status")`, `w.get("title")`); `Option.none` stands for a missing
key or a JSON `null`. -/
structure WarnItem where
  status : Option String
  title : Option String
deriving DecidableEq

/-- The Met Éireann JSON document: `data.get("warnings", [])`. -/
structure WarnDoc where
  warnings : Option (List WarnItem)
deriving DecidableEq

/-- An HTTP response: `r.text`, `r.content` (bytes), and `r.json()`
(`Option.none` when `.json()` raises). -/
structure Response where
  text : String
  content : List ℕ
  json : Option WarnDoc
deriving DecidableEq

/-- The Python exceptions that the modelled code can raise.  `noNumericCols`
stands for the plain `continue` taken by the ocean-heat fetcher when no
numeric column is found — not an exception in Python, but the same control
flow (this attempt fails, move to the next URL). -/
inductive PyErr where
  | httpError (msg : String)
  | runtimeError (msg : String)
  | valueError (msg : String)
  | typeError
  | indexError
  | jsonError
  | gzipError
  | parserError
  | noNumericCols
  | keyError (k : String)
  | attributeError
deriving DecidableEq

/-- The effect oracle: `net` models `http_get` (a `requests.get` plus
`raise_for_status`), `gunzip` models `gzip.decompress`, and
`decodeUtf8Replace` models `bytes.decode("utf-8", "replace")` (total thanks
to the `"replace"` error handler). -/
structure Env where
  net : String → Except PyErr Response
  gunzip : List ℕ → Except PyErr (List ℕ)
  decodeUtf8Replace : List ℕ → String

/-- The content returned by `try_urls`: `r.content` if `binary` else
`r.text`. -/
inductive Content where
  | text (s : String)
  | bytes (b : List ℕ)
deriving DecidableEq

/-- The loop of `utils.try_urls` with its `last_err` accumulator.  The first
component of the result is the list of URLs actually attempted, in order (an
instrumentation of the source loop; the source returns only the second
component):

```python
last_err = None
for u in urls:
    try:
        r = http_get(u, timeout=timeout)
        return u, (r.content if binary else r.text)
    except Exception as e:
        last_err = e
        continue
raise last_err if last_err else RuntimeError("No URLs tried")
``` -/
def try_urls_go (env : Env) (binary : Bool) :
    List String → Option PyErr → List String × Except PyErr (String × Content)
  | [], last =>
      ([],
        Except.error
          (match last with
           | some e => e
           | Option.none => PyErr.runtimeError "No URLs tried"))
  | u :: rest, _ =>
      match env.net u with
      | Except.ok r =>
          ([u], Except.ok (u, if binary then Content.bytes r.content else Content.text r.text))
      | Except.error e =>
          let next := try_urls_go env binary rest (some e)
          (u :: next.1, next.2)

/-- Model of `utils.try_urls(urls, timeout, binary)` (the `timeout` is passed through
to the network call and has no other effect; it is not modelled). -/
def try_urls (env : Env) (urls : List String) (binary : Bool) :
    List String × Except PyErr (String × Content) :=
  try_urls_go env binary urls Option.none

/-- The value returned (or exception raised) by `try_urls`, without the
attempt trace. -/
def try_urls_result (env : Env) (urls : List String) (binary : Bool) :
    Except PyErr (String × Content) :=
  (try_urls env urls binary).2

/-! ## pandas dataframes: cells and CSV parsing -/

/-- A dataframe cell: a number, a missing value (NaN), or a string kept
uninterpreted.  `pandas` object-dtype strings and floats are merged into one
type; numeric parsing happens at CSV read time. -/
inductive Cell where
  | num (d : Dec)
  | nan
  | str (s : String)
deriving DecidableEq

/-- Parse one CSV field the way `pandas.read_csv` types it: empty (after
stripping) or an NA spelling gives NaN, a decimal number gives a float/int
cell, anything else stays a string.  (Infinities, exponents and quoting do
not occur in the dashboard's data and are not modelled.) -/
def parseCell (field : String) : Cell :=
  let t := pyStrip field
  if t == "" then Cell.nan
  else
    match pyFloatOfString t with
    | some PyFloat.nan => Cell.nan
    | some (PyFloat.inf _) => Cell.str field
    | some (PyFloat.val d) => Cell.num d
    | Option.none => Cell.str field

/-- Split one CSV line into fields (comma separator, no quoting). -/
def splitFields (ln : String) : List String := pySplit ',' ln

/-- Pad or truncate a parsed row to the dataframe width (`pandas` fills short
rows with NaN and rejects over-long rows). -/
def padRow (w : ℕ) (fields : List String) : List Cell :=
  fields.map parseCell ++ List.replicate (w - fields.length) Cell.nan

/-- Model of `pandas.read_csv(..., header=None)`: every line is a data row; the first
line fixes the column count. -/
def readCsvNoHeader (lines : List String) : Except PyErr (List (List Cell)) :=
  match lines with
  | [] => Except.error PyErr.parserError
  | l0 :: _ =>
      let w := (splitFields l0).length
      if lines.all (fun ln => (splitFields ln).length ≤ w) then
        Except.ok (lines.map (fun ln => padRow w (splitFields ln)))
      else Except.error PyErr.parserError

/-- Model of `pandas.read_csv(...)` with a header row: the first line gives the column
names, the rest are data rows. -/
def readCsvHeader (lines : List String) :
    Except PyErr (List String × List (List Cell)) :=
  match lines with
  | [] => Except.error PyErr.parserError
  | l0 :: rest =>
      let header := splitFields l0
      let w := header.length
      if rest.all (fun ln => (splitFields ln).length ≤ w) then
        Except.ok (header, rest.map (fun ln => padRow w (splitFields ln)))
      else Except.error PyErr.parserError

/-- Cell of a row at a column index (missing columns read as NaN). -/
def cellAt (r : List Cell) (i : ℕ) : Cell := r.getD i Cell.nan

/-- Python `int()` truncates toward zero. -/
def Dec.toInt (a : Dec) : ℤ := Int.tdiv a.m (10 ^ a.e)

/-- Python `int("...")`: optional whitespace and sign around a digit
string. -/
def parseIntStrict (s : String) : Option ℤ :=
  let t := pyStrip s
  match t.data with
  | '-' :: ds => if !ds.isEmpty && ds.all Char.isDigit then some (-(digitsVal ds : ℤ)) else Option.none
  | '+' :: ds => if !ds.isEmpty && ds.all Char.isDigit then some (digitsVal ds : ℤ) else Option.none
  | ds => if !ds.isEmpty && ds.all Char.isDigit then some (digitsVal ds : ℤ) else Option.none

/-- Python `int(cell)`: truncate a number, raise on NaN, parse a string
strictly. -/
def intOfCell : Cell → Except PyErr ℤ
  | Cell.num d => Except.ok d.toInt
  | Cell.nan => Except.error (PyErr.valueError "cannot convert float NaN to integer")
  | Cell.str s =>
      match parseIntStrict s with
      | some n => Except.ok n
      | Option.none => Except.error (PyErr.valueError "invalid literal for int()")

/-- Python `float(cell)`: a number stays itself, NaN stays NaN, a string is
converted (raising on failure). -/
def floatOfCell : Cell → Except PyErr PyFloat
  | Cell.num d => Except.ok (PyFloat.val d)
  | Cell.nan => Except.ok PyFloat.nan
  | Cell.str s =>
      match pyFloatOfString s with
      | some x => Except.ok x
      | Option.none => Except.error (PyErr.valueError "could not convert string to float")

/-! ## CO₂ fetcher (`data_fetchers.fetch_noaa_co2_monthly`) -/

def co2DataUrl : String := "https://gml.noaa.gov/webdata/ccgg/trends/co2/co2_mm_mlo.csv"

def co2Source : String := "https://gml.noaa.gov/ccgg/trends/"

/-- The missing-data sentinel `-99.99` of the Mauna Loa CSV. -/
def co2Sentinel : Dec := ⟨-9999, 2⟩

/-- The record returned by the CO₂ fetcher. -/
structure Co2Rec where
  year : PyVal
  month : PyVal
  ppm : PyVal
  chart : String
  source : String
deriving DecidableEq

/-- Effect of `df.replace(-99.99, np.nan)` on one cell. -/
def co2ReplaceCell (c : Cell) : Cell :=
  match c with
  | Cell.num d => if d.veq co2Sentinel then Cell.nan else c
  | _ => c

/-- Effect of `df.replace(-99.99, np.nan)` on one row (the replacement applies to every
column). -/
def co2ReplaceRow (r : List Cell) : List Cell := r.map co2ReplaceCell

/-- Model of `df.replace(-99.99, np.nan).dropna(subset=["average"])`: the `average`
column is column 3 of the positional layout
`["year","month","decimal_date","average",...]`. -/
def co2Clean (rows : List (List Cell)) : List (List Cell) :=
  (rows.map co2ReplaceRow).filter (fun r => !(cellAt r 3 == Cell.nan))

/-- Selection `df.iloc[-1]` of the cleaned frame: the "latest" row selection. -/
def co2Latest (rows : List (List Cell)) : Option (List Cell) :=
  (co2Clean rows).getLast?

/-- The 24-month chart tail: `df.tail(24)`. -/
def co2Tail (rows : List (List Cell)) : List (List Cell) :=
  let c := co2Clean rows
  c.drop (c.length - 24)

/-- Model of `data_fetchers.fetch_noaa_co2_monthly`.  Note: unlike the other four
fetchers this function has **no** `try/except` — any failure (network error,
short CSV, empty frame, bad cell) propagates to the caller.  The chart step
(`tail["year"].astype(int)`, `tail["month"].astype(int)`) is modelled by
the `mapM` over the tail rows; drawing and saving the figure are side
effects without influence on the result. -/
def fetch_noaa_co2_monthly (env : Env) : Except PyErr Co2Rec :=
  match env.net co2DataUrl with
  | Except.error e => Except.error e
  | Except.ok r =>
      let lines := (pySplit '\n' r.text).filter
        (fun ln => !(pyStrip ln == "") && !(pyStartsWith ln "#"))
      match readCsvNoHeader lines with
      | Except.error e => Except.error e
      | Except.ok rows =>
          if (rows.headD []).length < 8 then
            Except.error (PyErr.valueError "Length mismatch: df.columns")
          else
            match co2Latest rows with
            | Option.none => Except.error PyErr.indexError
            | some latest =>
                match floatOfCell (cellAt latest 3) with
                | Except.error e => Except.error e
                | Except.ok ppm =>
                    match intOfCell (cellAt latest 0) with
                    | Except.error e => Except.error e
                    | Except.ok y =>
                        match intOfCell (cellAt latest 1) with
                        | Except.error e => Except.error e
                        | Except.ok m =>
                            match (co2Tail rows).mapM
                                (fun row => do
                                  let _ ← intOfCell (cellAt row 0)
                                  let _ ← intOfCell (cellAt row 1)
                                  pure ()) with
                            | Except.error e => Except.error e
                            | Except.ok _ =>
                                Except.ok
                                  { year := PyVal.int y, month := PyVal.int m,
                                    ppm := PyVal.float ppm,
                                    chart := "co2_24mo.png", source := co2Source }

/-! ## Warnings fetcher (`data_fetchers.fetch_met_eireann_warnings`) -/

def warnUrl : String := "https://www.met.ie/Open_Data/json/warning_IRELAND.json"

def warnSource : String := "https://www.met.ie/warnings"

/-- The record returned by the warnings fetcher. -/
structure WarnRec where
  count : PyVal
  titles : List String
  source : String
deriving DecidableEq

/-- The placeholder returned by the warnings fetcher when anything in its
`try` block raises. -/
def warnPlaceholder : WarnRec :=
  { count := PyVal.str "N/A", titles := [], source := warnSource }

/-- Test `(w.get("status","") or "").lower() == "active"` (a missing or null
status reads as the empty string). -/
def warnIsActive (w : WarnItem) : Bool :=
  pyLower (w.status.getD "") == "active"

/-- The title kept by `[w.get("title") for w in active if w.get("title")]`:
present and truthy (non-empty). -/
def warnTitle (w : WarnItem) : Option String :=
  match w.title with
  | some t => if t == "" then Option.none else some t
  | Option.none => Option.none

/-- Model of `data_fetchers.fetch_met_eireann_warnings`: download the JSON feed,
filter to active warnings, keep up to three titles; on any exception return
the placeholder. -/
def fetch_met_eireann_warnings (env : Env) : WarnRec :=
  match env.net warnUrl with
  | Except.error _ => warnPlaceholder
  | Except.ok r =>
      match r.json with
      | Option.none => warnPlaceholder
      | some doc =>
          let items := doc.warnings.getD []
          let active := items.filter warnIsActive
          let titles := active.filterMap warnTitle
          { count := PyVal.int active.length, titles := titles.take 3,
            source := warnSource }

/-! ## Sea-ice fetcher (`data_fetchers._parse_nsidc_daily_csv` /
`fetch_nsidc_arctic_daily`) -/

/-- Stable insertion into a sorted list (equal keys keep their order). -/
def insertSorted {α : Type} (le : α → α → Bool) (x : α) : List α → List α
  | [] => [x]
  | y :: ys => if le y x then y :: insertSorted le x ys else x :: y :: ys

/-- Stable insertion sort: the model of `DataFrame.sort_values`. -/
def sortByLe {α : Type} (le : α → α → Bool) (l : List α) : List α :=
  l.foldl (fun acc x => insertSorted le x acc) []

def nsidcCandidates : List String :=
  ["https://noaadata.apps.nsidc.org/NOAA/G02135/north/daily/data/N_seaice_extent_daily_v3.0.csv",
   "https://noaadata.apps.nsidc.org/NOAA/G02135/north/daily/data/N_seaice_extent_daily_v3.0.csv.gz",
   "https://sidads.colorado.edu/DATASETS/NOAA/G02135/north/daily/data/N_seaice_extent_daily_v3.0.csv",
   "https://sidads.colorado.edu/DATASETS/NOAA/G02135/north/daily/data/N_seaice_extent_daily_v3.0.csv.gz"]

def nsidcSource : String := "https://nsidc.org/sea-ice-today"

/-- The nested `latest` dictionary of the sea-ice record. -/
structure NsidcLatest where
  date : String
  extent_mkm2 : PyVal
deriving DecidableEq

/-- The record returned by the sea-ice fetcher. -/
structure NsidcRec where
  latest : NsidcLatest
  chart : String
  source : String
deriving DecidableEq

/-- The placeholder returned when every candidate URL attempt fails. -/
def nsidcPlaceholder : NsidcRec :=
  { latest := { date := "N/A", extent_mkm2 := PyVal.float PyFloat.nan },
    chart := "", source := nsidcSource }

/-- Test `ln.lower().startswith("year") or ln.lower().startswith("yyyy")`: the
header-line test of `_parse_nsidc_daily_csv`. -/
def nsidcHdrMatch (ln : String) : Bool :=
  pyStartsWith (pyLower ln) "year" || pyStartsWith (pyLower ln) "yyyy"

/-- The non-blank lines of the downloaded text. -/
def nsidcLines (text : String) : List String :=
  (pySplit '\n' text).filter (fun ln => !(pyStrip ln == ""))

/-- The located header index: first matching line, `0` when no line
matches (the loop's initial value). -/
def nsidcStartIdx (lines : List String) : ℕ :=
  (lines.findIdx? nsidcHdrMatch).getD 0

/-- First column name satisfying a predicate
(`next((c for c in df.columns if p c), None)`). -/
def findColIdx (p : String → Bool) (header : List String) : Option ℕ :=
  header.findIdx? p

/-- The header row that `_parse_nsidc_daily_csv` will hand to
`pd.read_csv` for a given line list. -/
def nsidcColumns (lines : List String) : List String :=
  splitFields ((lines.drop (nsidcStartIdx lines)).headD "")

/-- Model of when `pd.to_datetime(..., errors="coerce")` succeeds on a year/month/day
triple (month 1–12, day 1–31; finer calendar validity does not occur in this
data and is not modelled). -/
def nsidcValidDate (y m d : ℤ) : Bool :=
  decide (1 ≤ m) && decide (m ≤ 12) && decide (1 ≤ d) && decide (d ≤ 31) && decide (1 ≤ y)

/-- Lexicographic order on synthesized dates. -/
def dateLe (a b : ℤ × ℤ × ℤ) : Bool :=
  decide (a.1 < b.1) ||
    (a.1 == b.1 && (decide (a.2.1 < b.2.1) || (a.2.1 == b.2.1 && decide (a.2.2 ≤ b.2.2))))

/-- The missing-data sentinel `-9999` of the NSIDC CSV. -/
def nsidcSentinel : Dec := ⟨-9999, 0⟩

/-- Effect of `df.replace(-9999, np.nan)` on one cell. -/
def nsidcReplaceCell (c : Cell) : Cell :=
  match c with
  | Cell.num d => if d.veq nsidcSentinel then Cell.nan else c
  | _ => c

/-- One parsed and dated NSIDC row: the synthesized date plus the original
cells (after sentinel replacement). -/
structure NsidcRow where
  y : ℤ
  m : ℤ
  d : ℤ
  cells : List Cell
deriving DecidableEq

/-- The body of `_parse_nsidc_daily_csv` from the header scan onward:
find the header line, read the CSV, resolve the year/month/day/extent
columns by the name heuristics (raising `ValueError("Unexpected NSIDC CSV
columns")` when one is missing), synthesize the date column
(`astype(int)` raising on non-integer cells), drop undated rows, sort by
date, and replace the `-9999` sentinel. -/
def parseNsidcLines (lines : List String) :
    Except PyErr (List NsidcRow × ℕ × String) :=
  let body := lines.drop (nsidcStartIdx lines)
  match readCsvHeader body with
  | Except.error e => Except.error e
  | Except.ok (header, rows) =>
      match findColIdx (fun c => pyStartsWith (pyLower c) "y") header,
            findColIdx (fun c => pyStartsWith (pyLower c) "m") header,
            findColIdx (fun c => pyStartsWith (pyLower c) "d") header,
            findColIdx (fun c => strContainsSub (pyLower c) "extent") header with
      | some yi, some mi, some di, some ei =>
          match rows.mapM
              (fun r => do
                let y ← intOfCell (cellAt r yi)
                let m ← intOfCell (cellAt r mi)
                let d ← intOfCell (cellAt r di)
                pure (NsidcRow.mk y m d r)) with
          | Except.error e => Except.error e
          | Except.ok drows =>
              let dated := drows.filter (fun row => nsidcValidDate row.y row.m row.d)
              let sorted := sortByLe
                (fun a b => dateLe (a.y, a.m, a.d) (b.y, b.m, b.d)) dated
              let replaced := sorted.map
                (fun row => { row with cells := row.cells.map nsidcReplaceCell })
              Except.ok (replaced, ei, header.getD ei "")
      | _, _, _, _ => Except.error (PyErr.valueError "Unexpected NSIDC CSV columns")

/-- Model of `_parse_nsidc_daily_csv(text)`. -/
def parse_nsidc_daily_csv (text : String) : Except PyErr (List NsidcRow × ℕ × String) :=
  parseNsidcLines (nsidcLines text)

/-- Render `str(Timestamp(y, m, d).date())`: ISO `YYYY-MM-DD`. -/
def nsidcDateStr (y m d : ℤ) : String :=
  padZeros (toString y.natAbs) 4 ++ "-" ++ padZeros (toString m.natAbs) 2 ++ "-" ++
    padZeros (toString d.natAbs) 2

/-- The download step of one candidate-URL attempt: `try_urls([url])`, with
gzip decompression and UTF-8 (`"replace"`) decoding for `.gz` variants. -/
def nsidcDownload (env : Env) (url : String) : Except PyErr String :=
  if pyEndsWith url ".gz" then
    match try_urls_result env [url] true with
    | Except.error e => Except.error e
    | Except.ok (_, Content.bytes b) =>
        match env.gunzip b with
        | Except.error e => Except.error e
        | Except.ok ungz => Except.ok (env.decodeUtf8Replace ungz)
    | Except.ok (_, Content.text _) => Except.error PyErr.typeError
  else
    match try_urls_result env [url] false with
    | Except.error e => Except.error e
    | Except.ok (_, Content.text t) => Except.ok t
    | Except.ok (_, Content.bytes _) => Except.error PyErr.typeError

/-- The body of one iteration of the candidate loop of
`fetch_nsidc_arctic_daily` (everything inside its `try`): download, parse,
drop rows with a missing extent, take the last as latest.  The 365-day chart
uses the same cleaned rows and introduces no further failure. -/
def attempt_nsidc (env : Env) (url : String) : Except PyErr NsidcRec :=
  match nsidcDownload env url with
  | Except.error e => Except.error e
  | Except.ok text =>
      match parse_nsidc_daily_csv text with
      | Except.error e => Except.error e
      | Except.ok (rows, ei, _) =>
          let nonNan := rows.filter (fun row => !(cellAt row.cells ei == Cell.nan))
          match nonNan.getLast? with
          | Option.none => Except.error PyErr.indexError
          | some lastRow =>
              match floatOfCell (cellAt lastRow.cells ei) with
              | Except.error e => Except.error e
              | Except.ok v =>
                  Except.ok
                    { latest := { date := nsidcDateStr lastRow.y lastRow.m lastRow.d,
                                  extent_mkm2 := PyVal.float v },
                      chart := "arctic_extent_365d.png", source := nsidcSource }

/-- The `for url in candidates: try ... except: continue` pattern shared by
the sea-ice and ocean-heat fetchers, with the final placeholder return. -/
def fetchLoop {α : Type} (attempt : String → Except PyErr α) (placeholder : α) :
    List String → α
  | [] => placeholder
  | u :: rest =>
      match attempt u with
      | Except.ok r => r
      | Except.error _ => fetchLoop attempt placeholder rest

/-- Model of `data_fetchers.fetch_nsidc_arctic_daily`. -/
def fetch_nsidc_arctic_daily (env : Env) : NsidcRec :=
  fetchLoop (attempt_nsidc env) nsidcPlaceholder nsidcCandidates

/-! ## Ocean-heat fetcher (`data_fetchers.fetch_noaa_ncei_ohc_latest`) -/

def ohcCandidates : List String :=
  ["https://www.ncei.noaa.gov/data/ocean-heat-content/anomaly/ohc_levitus_climdash/ohc_0-2000m_annual.csv",
   "https://www.ncei.noaa.gov/data/ocean-heat-content/anomaly/ohc_levitus_climdash/ohc_0-2000m_annual_mean.csv",
   "https://www.ncei.noaa.gov/access/global-ocean-heat-content/ohc_0-2000m.csv"]

def ohcSource : String := "https://www.ncei.noaa.gov/access/global-ocean-heat-content/"

/-- The record returned by the ocean-heat fetcher. -/
structure OhcRec where
  year : PyVal
  value : PyVal
  units : String
  source : String
deriving DecidableEq

/-- The placeholder returned when every candidate URL attempt fails. -/
def ohcPlaceholder : OhcRec :=
  { year := PyVal.str "N/A", value := PyVal.str "N/A", units := "", source := ohcSource }

/-- Model of `pd.api.types.is_numeric_dtype(df[c])`: a column is numeric when no cell
of it parsed as a string. -/
def colIsNumeric (rows : List (List Cell)) (i : ℕ) : Bool :=
  rows.all (fun r =>
    match cellAt r i with
    | Cell.str _ => false
    | _ => true)

/-- Order used by `sort_values`: numbers by value, strings alphabetically,
NaN last. -/
def cellLe (a b : Cell) : Bool :=
  match a, b with
  | _, Cell.nan => true
  | Cell.nan, _ => false
  | Cell.num x, Cell.num y => x.ble y
  | Cell.str s, Cell.str t => !(decide (t < s))
  | Cell.num _, Cell.str _ => true
  | Cell.str _, Cell.num _ => false

/-- Model of `df.sort_values(col)`: raises `TypeError` on a column mixing numbers and
strings (as pandas comparison does), otherwise sorts with NaN last. -/
def sortValuesByCol (rows : List (List Cell)) (i : ℕ) :
    Except PyErr (List (List Cell)) :=
  let hasNum := rows.any (fun r =>
    match cellAt r i with
    | Cell.num _ => true
    | _ => false)
  let hasStr := rows.any (fun r =>
    match cellAt r i with
    | Cell.str _ => true
    | _ => false)
  if hasNum && hasStr then Except.error PyErr.typeError
  else Except.ok (sortByLe (fun a b => cellLe (cellAt a i) (cellAt b i)) rows)

/-- One iteration of the candidate loop of `fetch_noaa_ncei_ohc_latest`
(everything inside its `try`, with the `if not num_cols: continue` modelled
as the failing result `PyErr.noNumericCols`): download, drop comment/blank
lines, read the CSV with a header, resolve the year column by the "year"
prefix (falling back to the first column), collect the other numeric
columns, drop rows missing any of them, sort by year, take the last row. -/
def attempt_ohc (env : Env) (url : String) : Except PyErr OhcRec :=
  match try_urls_result env [url] false with
  | Except.error e => Except.error e
  | Except.ok (_, Content.bytes _) => Except.error PyErr.typeError
  | Except.ok (_, Content.text text) =>
      let lines := (pySplit '\n' text).filter
        (fun ln => !(pyStrip ln == "") && !(pyStartsWith (pyStrip ln) "#"))
      match readCsvHeader lines with
      | Except.error e => Except.error e
      | Except.ok (header, rows) =>
          let yearIdx := (findColIdx (fun c => pyStartsWith (pyLower c) "year") header).getD 0
          let numIdxs := (List.range header.length).filter
            (fun i => !(i == yearIdx) && colIsNumeric rows i)
          if numIdxs.isEmpty then Except.error PyErr.noNumericCols
          else
            let kept := rows.filter
              (fun r => numIdxs.all (fun i => !(cellAt r i == Cell.nan)))
            match sortValuesByCol kept yearIdx with
            | Except.error e => Except.error e
            | Except.ok sorted =>
                match sorted.getLast? with
                | Option.none => Except.error PyErr.indexError
                | some lastRow =>
                    match intOfCell (cellAt lastRow yearIdx) with
                    | Except.error e => Except.error e
                    | Except.ok y =>
                        match floatOfCell (cellAt lastRow (numIdxs.headD 0)) with
                        | Except.error e => Except.error e
                        | Except.ok v =>
                            Except.ok
                              { year := PyVal.int y, value := PyVal.float v,
                                units := "J × 10^22", source := ohcSource }

/-- Model of `data_fetchers.fetch_noaa_ncei_ohc_latest`. -/
def fetch_noaa_ncei_ohc_latest (env : Env) : OhcRec :=
  fetchLoop (attempt_ohc env) ohcPlaceholder ohcCandidates

/-! ## Fires fetcher (`data_fetchers.fetch_forest_fires_data`) -/

def firesUrl : String :=
  "https://firms.modaps.eosdis.nasa.gov/api/country/csv/3b46de7c8b5a4154a05a87c549d73836/VIIRS_SNPP_NRT/world/1"

def firesSource : String := "https://firms.modaps.eosdis.nasa.gov/"

/-- The record returned by the fires fetcher. -/
structure FiresRec where
  count : PyVal
  source : String
  description : String
deriving DecidableEq

/-- The placeholder returned by the fires fetcher when its `try` block
raises. -/
def firesPlaceholder : FiresRec :=
  { count := PyVal.str "N/A", source := firesSource,
    description := "Fire data temporarily unavailable" }

/-- Model of `data_fetchers.fetch_forest_fires_data`: download the FIRMS CSV and
count its data rows (`len(lines) - 1` when more than one line), returning
the placeholder on any exception. -/
def fetch_forest_fires_data (env : Env) : FiresRec :=
  match env.net firesUrl with
  | Except.error _ => firesPlaceholder
  | Except.ok r =>
      let lines := pySplit '\n' (pyStrip r.text)
      let fireCount : ℕ := if lines.length > 1 then lines.length - 1 else 0
      { count := PyVal.int fireCount, source := firesSource,
        description := "Active fires detected by VIIRS satellite in last 24 hours" }

/-- An environment where every network request fails with the same
error. -/
def allFailEnv : Env :=
  { net := fun _ => Except.error (PyErr.httpError "connection error"),
    gunzip := fun _ => Except.error PyErr.gzipError,
    decodeUtf8Replace := fun _ => "" }

/-! ## C1: behaviour when every download attempt fails -/

/-! ## C9: records are fully populated or exactly the placeholder -/

/-! ## C10: totality and case analysis of `fmt_num` -/

/-! ## Python objects and the HTML tile renderers (`html_builder.py`)

The aggregate `ctx` handed to the renderers is modelled as an untyped Python
object (nested dictionaries/lists of scalars), so that dictionary access by
key (`ctx["co2"]`, raising `KeyError`) and `.get` with a default are modelled
faithfully. -/

/-- An untyped Python object: a scalar, a list, or a string-keyed dict. -/
inductive PyObj where
  | val (v : PyVal)
  | list (xs : List PyObj)
  | dict (kvs : List (String × PyObj))

/-- First binding of a key in a dict. -/
def dictLookup (kvs : List (String × PyObj)) (k : String) : Option PyObj :=
  (kvs.find? (fun kv => kv.1 == k)).map Prod.snd

/-- Python `o[k]`: `KeyError` on a missing key, `TypeError` on a
non-dict. -/
def pyGetItem (o : PyObj) (k : String) : Except PyErr PyObj :=
  match o with
  | PyObj.dict kvs =>
      match dictLookup kvs k with
      | some v => Except.ok v
      | Option.none => Except.error (PyErr.keyError k)
  | _ => Except.error PyErr.typeError

/-- Python `o.get(k, default)` (`AttributeError` on a non-dict). -/
def pyGet (o : PyObj) (k : String) (dflt : PyObj) : Except PyErr PyObj :=
  match o with
  | PyObj.dict kvs =>
      match dictLookup kvs k with
      | some v => Except.ok v
      | Option.none => Except.ok dflt
  | _ => Except.error PyErr.attributeError

/-- Python truthiness (note: float NaN is truthy). -/
def pyTruthy : PyObj → Bool
  | PyObj.val PyVal.none => false
  | PyObj.val (PyVal.int n) => !(n == 0)
  | PyObj.val (PyVal.float PyFloat.nan) => true
  | PyObj.val (PyVal.float (PyFloat.inf _)) => true
  | PyObj.val (PyVal.float (PyFloat.val d)) => !(d.veq ⟨0, 0⟩)
  | PyObj.val (PyVal.str s) => !(s == "")
  | PyObj.list xs => !xs.isEmpty
  | PyObj.dict kvs => !kvs.isEmpty

/-- Python `str()` on an object.  The dashboard's records hold scalars and
flat lists of strings wherever `str()` is applied; nested containers render
coarsely. -/
def pyObjStr : PyObj → String
  | PyObj.val v => pyValStr v
  | PyObj.list xs =>
      "[" ++
        pyJoinList ", "
          (xs.map (fun x =>
            match x with
            | PyObj.val (PyVal.str s) => "'" ++ s ++ "'"
            | PyObj.val v => pyValStr v
            | _ => "...")) ++ "]"
  | PyObj.dict _ => "\x7b...\x7d"

/-- Behaviour of `fmt_num` applied to an arbitrary object: containers are not `None`, not
floats, not ints, and `float()` raises on them, so they hit the `except`
branch and give the default. -/
def fmtNumObj (o : PyObj) (nd : ℕ) (dflt : String) : String :=
  match o with
  | PyObj.val v => fmt_num v nd dflt
  | _ => dflt

/-- Elements of a joined iterable must all be strings (`TypeError`
otherwise). -/
def pyStrList : List PyObj → Except PyErr (List String)
  | [] => Except.ok []
  | PyObj.val (PyVal.str s) :: rest => (pyStrList rest).map (fun l => s :: l)
  | _ :: _ => Except.error PyErr.typeError

/-- Python `sep.join(o)`. -/
def pyJoin (sep : String) (o : PyObj) : Except PyErr String :=
  match o with
  | PyObj.list xs =>
      match pyStrList xs with
      | Except.ok parts => Except.ok (pyJoinList sep parts)
      | Except.error e => Except.error e
  | _ => Except.error PyErr.typeError

/-- The warnings-titles fragment of the details tiles:
`", ".join(warn.get("titles") or []) or "—"`. -/
def warnTitlesStr (warn : PyObj) : Except PyErr String := do
  let t ← pyGet warn "titles" (PyObj.val PyVal.none)
  let joined ← pyJoin ", " (if pyTruthy t then t else PyObj.list [])
  pure (if joined == "" then "—" else joined)

/-- The constant Dublin tide-gauge record. -/
structure DublinRec where
  link : String
  note : String
deriving DecidableEq

/-- Model of `data_fetchers.fetch_psmsl_dublin_note`: no network call, constant
record. -/
def fetch_psmsl_dublin_note : DublinRec :=
  { link := "https://psmsl.org/data/obtaining/stations/432.php",
    note := "Dublin tide-gauge shows a gradual long-term rise." }

/-- The CO₂ placeholder substituted by the orchestrator (`main()` in
`build.py`) when `fetch_noaa_co2_monthly` raises. -/
def co2Placeholder : Co2Rec :=
  { year := PyVal.str "N/A", month := PyVal.int 0,
    ppm := PyVal.float PyFloat.nan, chart := "", source := co2Source }

/-- The CO₂ record as the Python dict handed to the renderer. -/
def co2Obj (r : Co2Rec) : PyObj :=
  PyObj.dict
    [("year", PyObj.val r.year), ("month", PyObj.val r.month),
     ("ppm", PyObj.val r.ppm), ("chart", PyObj.val (PyVal.str r.chart)),
     ("source", PyObj.val (PyVal.str r.source))]

/-- The warnings record as a Python dict. -/
def warnObj (r : WarnRec) : PyObj :=
  PyObj.dict
    [("count", PyObj.val r.count),
     ("titles", PyObj.list (r.titles.map (fun t => PyObj.val (PyVal.str t)))),
     ("source", PyObj.val (PyVal.str r.source))]

/-- The Dublin record as a Python dict. -/
def dublinObj (r : DublinRec) : PyObj :=
  PyObj.dict
    [("link", PyObj.val (PyVal.str r.link)), ("note", PyObj.val (PyVal.str r.note))]

/-- The sea-ice record as a Python dict (with its nested `latest`). -/
def nsidcObj (r : NsidcRec) : PyObj :=
  PyObj.dict
    [("latest",
        PyObj.dict
          [("date", PyObj.val (PyVal.str r.latest.date)),
           ("extent_mkm2", PyObj.val r.latest.extent_mkm2)]),
     ("chart", PyObj.val (PyVal.str r.chart)),
     ("source", PyObj.val (PyVal.str r.source))]

/-- The ocean-heat record as a Python dict. -/
def ohcObj (r : OhcRec) : PyObj :=
  PyObj.dict
    [("year", PyObj.val r.year), ("value", PyObj.val r.value),
     ("units", PyObj.val (PyVal.str r.units)),
     ("source", PyObj.val (PyVal.str r.source))]

/-- The fires record as a Python dict. -/
def firesObj (r : FiresRec) : PyObj :=
  PyObj.dict
    [("count", PyObj.val r.count), ("source", PyObj.val (PyVal.str r.source)),
     ("description", PyObj.val (PyVal.str r.description))]

/-- The aggregate mapping assembled by the orchestrator and handed to the
renderers. -/
def ctxObj (c : Co2Rec) (w : WarnRec) (d : DublinRec) (n : NsidcRec)
    (o : OhcRec) (f : FiresRec) : PyObj :=
  PyObj.dict
    [("co2", co2Obj c), ("warnings", warnObj w), ("dublin", dublinObj d),
     ("nsidc", nsidcObj n), ("ohc", ohcObj o), ("fires", firesObj f)]

/-- Model of `html_builder.build_simple_tiles(ctx)`: the literal HTML of the source
f-string with its interpolations. -/
def build_simple_tiles (ctx : PyObj) : Except PyErr String := do
  let co2 ← pyGetItem ctx "co2"
  let nsidc ← pyGetItem ctx "nsidc"
  let fires ← pyGetItem ctx "fires"
  let ppmObj ← pyGet co2 "ppm" (PyObj.val PyVal.none)
  let co2_ppm := fmtNumObj ppmObj 2 fmtNumDefault
  let sea_level_phone_equiv := "about a modern phone's thickness × 6"
  let latestObj ← pyGet nsidc "latest" (PyObj.dict [])
  let nsidc_val ← pyGet latestObj "extent_mkm2" (PyObj.val (PyVal.float PyFloat.nan))
  let countObj ← pyGet fires "count" (PyObj.val PyVal.none)
  pure ("\n      <div class=\"tile pulse\">\n        <div class=\"big\"><span class=\"count\" data-value=\"" ++
    co2_ppm ++
    "\">0</span> ppm</div>\n        <div class=\"title\">CO₂ in the air</div>\n        <p>Higher than at any point in human history.</p>\n        <details><summary>What this means</summary>\n          CO₂ traps heat. More CO₂ → warmer planet.\n        </details>\n      </div>\n\n      <div class=\"tile\">\n        <div class=\"big\">+3.6 inches</div>\n        <div class=\"title\">Sea level since 1993</div>\n        <p>Global seas have risen by ~9.2 cm — " ++
    sea_level_phone_equiv ++
    ".</p>\n        <details><summary>What this means</summary>\n          Higher baseline makes coastal flooding more frequent.\n        </details>\n      </div>\n\n      <div class=\"tile\">\n        <div class=\"big\">" ++
    fmtNumObj nsidc_val 2 fmtNumDefault ++
    " million km²</div>\n        <div class=\"title\">Arctic summer ice</div>\n        <p>Trending lower; darker ocean absorbs more heat.</p>\n        <details><summary>What this means</summary>\n          Less ice → more warming feedback.\n        </details>\n      </div>\n\n      <div class=\"tile\">\n        <div class=\"big\">Oceans are the heat sponge</div>\n        <div class=\"title\">Ocean heat content</div>\n        <p>Most extra heat is stored in the upper 2 km of the ocean.</p>\n        <details><summary>What this means</summary>\n          Warmer oceans raise sea levels and power heavier downpours.\n        </details>\n      </div>\n\n      <div class=\"tile\">\n        <div class=\"big\">" ++
    fmtNumObj countObj 0 fmtNumDefault ++
    " fires</div>\n        <div class=\"title\">Active forest fires</div>\n        <p>Detected by NASA satellites in the last 24 hours.</p>\n        <details><summary>What this means</summary>\n          Forest fires release CO₂ and reduce carbon absorption capacity.\n        </details>\n      </div>\n    ")

/-- The part of `build_details_tiles` after the warnings-titles join: the
remaining lookups (all on record-shaped dicts) and the literal HTML of the
source f-string.  (The fallible lookups run in a slightly different order
than the f-string's left-to-right evaluation; on record-shaped inputs every
one of them succeeds, so the difference is immaterial.) -/
def detailsRest (co2 warn dublin nsidc ohc fires : PyObj) (tstr : String) :
    Except PyErr String := do
  let ppmObj ← pyGet co2 "ppm" (PyObj.val PyVal.none)
  let co2_ppm := fmtNumObj ppmObj 2 fmtNumDefault
  let yearObj ← pyGet co2 "year" (PyObj.val (PyVal.str "N/A"))
  let monthObj ← pyGet co2 "month" (PyObj.val (PyVal.str ""))
  let co2_date := pyObjStr yearObj ++ "-" ++ pyZfill (pyObjStr monthObj) 2
  let co2SourceObj ← pyGetItem co2 "source"
  let co2ChartObj ← pyGet co2 "chart" (PyObj.val (PyVal.str ""))
  let warnCountObj ← pyGet warn "count" (PyObj.val PyVal.none)
  let warnSourceObj ← pyGetItem warn "source"
  let latestObj ← pyGet nsidc "latest" (PyObj.dict [])
  let nsidc_val ← pyGet latestObj "extent_mkm2" (PyObj.val (PyVal.float PyFloat.nan))
  let latestObj2 ← pyGet nsidc "latest" (PyObj.dict [])
  let nsidc_date ← pyGet latestObj2 "date" (PyObj.val (PyVal.str "N/A"))
  let nsidcSourceObj ← pyGetItem nsidc "source"
  let chartObj ← pyGet nsidc "chart" (PyObj.val PyVal.none)
  let chartHtml :=
    if pyTruthy chartObj then
      "<img src=\"" ++ pyObjStr chartObj ++ "\" alt=\"Arctic sea-ice extent sparkline\">"
    else "<div class='sub'>Chart unavailable this run.</div>"
  let dublinNoteObj ← pyGetItem dublin "note"
  let dublinLinkObj ← pyGetItem dublin "link"
  let ohcValueObj ← pyGet ohc "value" (PyObj.val PyVal.none)
  let ohcUnitsObj ← pyGet ohc "units" (PyObj.val (PyVal.str ""))
  let ohcYearObj ← pyGet ohc "year" (PyObj.val (PyVal.str "N/A"))
  let ohcSourceObj ← pyGetItem ohc "source"
  let firesCountObj ← pyGet fires "count" (PyObj.val PyVal.none)
  let firesDescObj ← pyGet fires "description" (PyObj.val (PyVal.str ""))
  let firesSourceObj ← pyGet fires "source" (PyObj.val (PyVal.str ""))
  pure ("\n      <div class=\"card reveal\">\n        <div class=\"label\">Atmospheric CO₂ (Mauna Loa, monthly)</div>\n        <div class=\"value\">" ++
    co2_ppm ++
    " ppm</div>\n        <div class=\"sub\">Latest: " ++
    co2_date ++
    " · <a href=\"" ++
    pyObjStr co2SourceObj ++
    "\">NOAA GML</a></div>\n        <img src=\"" ++
    pyObjStr co2ChartObj ++
    "\" alt=\"CO₂ last 24 months\">\n      </div>\n\n      <div class=\"card reveal\">\n        <div class=\"label\">Met Éireann Warnings (Ireland)</div>\n        <div class=\"value\">" ++
    fmtNumObj warnCountObj 0 fmtNumDefault ++
    "</div>\n        <div class=\"sub\">" ++
    tstr ++
    " · <a href=\"" ++
    pyObjStr warnSourceObj ++
    "\">Source</a></div>\n      </div>\n\n      <div class=\"card reveal\">\n        <div class=\"label\">Arctic Sea Ice Extent</div>\n        <div class=\"value\">" ++
    fmtNumObj nsidc_val 2 fmtNumDefault ++
    " million km²</div>\n        <div class=\"sub\">Latest: " ++
    pyObjStr nsidc_date ++
    " · <a href=\"" ++
    pyObjStr nsidcSourceObj ++
    "\">NSIDC</a></div>\n        " ++
    chartHtml ++
    "\n      </div>\n\n      <div class=\"card reveal\">\n        <div class=\"label\">Dublin Tide Gauge</div>\n        <div class=\"value\">" ++
    pyObjStr dublinNoteObj ++
    "</div>\n        <div class=\"sub\"><a href=\"" ++
    pyObjStr dublinLinkObj ++
    "\">PSMSL Station 432</a></div>\n      </div>\n\n      <div class=\"card reveal\">\n        <div class=\"label\">Ocean Heat Content (0–2000 m)</div>\n        <div class=\"value\">" ++
    pyObjStr ohcValueObj ++
    " " ++
    pyObjStr ohcUnitsObj ++
    "</div>\n        <div class=\"sub\">Latest year: " ++
    pyObjStr ohcYearObj ++
    " · <a href=\"" ++
    pyObjStr ohcSourceObj ++
    "\">NOAA NCEI</a></div>\n      </div>\n\n      <div class=\"card reveal\">\n        <div class=\"label\">Active Forest Fires (24h)</div>\n        <div class=\"value\">" ++
    fmtNumObj firesCountObj 0 fmtNumDefault ++
    " fires detected</div>\n        <div class=\"sub\">" ++
    pyObjStr firesDescObj ++
    " · <a href=\"" ++
    pyObjStr firesSourceObj ++
    "\">NASA FIRMS</a></div>\n      </div>\n    ")

/-- Model of `html_builder.build_details_tiles(ctx)`. -/
def build_details_tiles (ctx : PyObj) : Except PyErr String := do
  let co2 ← pyGetItem ctx "co2"
  let warn ← pyGetItem ctx "warnings"
  let dublin ← pyGetItem ctx "dublin"
  let nsidc ← pyGetItem ctx "nsidc"
  let ohc ← pyGetItem ctx "ohc"
  let fires ← pyGetItem ctx "fires"
  let tstr ← warnTitlesStr warn
  detailsRest co2 warn dublin nsidc ohc fires tstr

/-- A CO₂ record is fully populated (numeric year/month/ppm, fixed chart
path, canonical source) or it is the orchestrator's placeholder. -/
def co2RecValid (c : Co2Rec) : Prop :=
  ((∃ y m : ℤ, ∃ x : Dec, c.year = PyVal.int y ∧ c.month = PyVal.int m ∧
      c.ppm = PyVal.float (PyFloat.val x)) ∧
    c.chart = "co2_24mo.png" ∧ c.source = co2Source) ∨ c = co2Placeholder

/-- A warnings record is fully populated or the placeholder. -/
def warnRecValid (w : WarnRec) : Prop :=
  ((∃ n : ℕ, w.count = PyVal.int n) ∧ w.source = warnSource) ∨ w = warnPlaceholder

/-- A sea-ice record is fully populated or the placeholder. -/
def nsidcRecValid (n : NsidcRec) : Prop :=
  ((∃ y m d : ℤ, n.latest.date = nsidcDateStr y m d) ∧
    (∃ x : Dec, n.latest.extent_mkm2 = PyVal.float (PyFloat.val x)) ∧
    n.chart = "arctic_extent_365d.png" ∧ n.source = nsidcSource) ∨ n = nsidcPlaceholder

/-- An ocean-heat record is fully populated or the placeholder. -/
def ohcRecValid (o : OhcRec) : Prop :=
  ((∃ n : ℤ, o.year = PyVal.int n) ∧ (∃ x : Dec, o.value = PyVal.float (PyFloat.val x)) ∧
    o.units = "J × 10^22" ∧ o.source = ohcSource) ∨ o = ohcPlaceholder

/-- A fires record is fully populated or the placeholder. -/
def firesRecValid (f : FiresRec) : Prop :=
  ((∃ n : ℕ, f.count = PyVal.int n) ∧ f.source = firesSource) ∨ f = firesPlaceholder

/-- The ocean-heat example record of the round-trip property:
`{year: 2023, value: 15.2, units: "J × 10^22"}`. -/
def ohcExample : OhcRec :=
  { year := PyVal.int 2023, value := PyVal.float (PyFloat.val ⟨152, 1⟩),
    units := "J × 10^22", source := ohcSource }

/-- A concrete aggregate holding the example ocean-heat record (the other
sources hold their placeholders). -/
def ctx4 : PyObj :=
  ctxObj co2Placeholder warnPlaceholder fetch_psmsl_dublin_note nsidcPlaceholder
    ohcExample firesPlaceholder

/-! ## Theorems -/

theorem try_urls_go_cons_ok (env : Env) (binary : Bool) (u : String) (rest : List String)
    (last0 : Option PyErr) (r : Response) (hu : env.net u = Except.ok r) :
    try_urls_go env binary (u :: rest) last0 =
      ([u], Except.ok (u, if binary then Content.bytes r.content else Content.text r.text)) := by
  simp [try_urls_go, hu]

theorem try_urls_go_cons_err (env : Env) (binary : Bool) (u : String) (rest : List String)
    (last0 : Option PyErr) (e : PyErr) (he : env.net u = Except.error e) :
    try_urls_go env binary (u :: rest) last0 =
      (u :: (try_urls_go env binary rest (some e)).1,
        (try_urls_go env binary rest (some e)).2) := by
  simp [try_urls_go, he]

theorem try_urls_go_first_success (env : Env) (binary : Bool) (u : String)
    (post : List String) (r : Response) (hu : env.net u = Except.ok r) :
    ∀ (pre : List String) (last0 : Option PyErr),
      (∀ v ∈ pre, ∃ e, env.net v = Except.error e) →
      try_urls_go env binary (pre ++ u :: post) last0 =
        (pre ++ [u],
          Except.ok (u, if binary then Content.bytes r.content else Content.text r.text)) := by
  intro pre
  induction pre with
  | nil => intro last0 _; simpa using try_urls_go_cons_ok env binary u post last0 r hu
  | cons v vs ih =>
      intro last0 hfail
      obtain ⟨e, he⟩ := hfail v (List.mem_cons_self v vs)
      have hrest : ∀ w ∈ vs, ∃ e', env.net w = Except.error e' := fun w hw =>
        hfail w (List.mem_cons_of_mem v hw)
      rw [List.cons_append, try_urls_go_cons_err env binary v (vs ++ u :: post) last0 e he,
        ih (some e) hrest]
      simp

theorem try_urls_go_all_fail (env : Env) (binary : Bool) :
    ∀ (urls : List String) (lastU : String) (e : PyErr) (last0 : Option PyErr),
      (∀ v ∈ urls, ∃ e', env.net v = Except.error e') →
      urls.getLast? = some lastU → env.net lastU = Except.error e →
      try_urls_go env binary urls last0 = (urls, Except.error e) := by
  intro urls
  induction urls with
  | nil => intro lastU e last0 _ hlast _; simp at hlast
  | cons u rest ih =>
      intro lastU e last0 hfail hlast herr
      obtain ⟨e', he'⟩ := hfail u (List.mem_cons_self u rest)
      cases rest with
      | nil =>
          simp only [List.getLast?_singleton, Option.some.injEq] at hlast
          subst hlast
          rw [herr] at he'
          cases he'
          rw [try_urls_go_cons_err env binary u [] last0 e herr]
          simp [try_urls_go]
      | cons v vs =>
          have hlast' : (v :: vs).getLast? = some lastU := by
            simpa [List.getLast?_cons_cons] using hlast
          have hrest : ∀ w ∈ v :: vs, ∃ e'', env.net w = Except.error e'' := fun w hw =>
            hfail w (List.mem_cons_of_mem u hw)
          rw [try_urls_go_cons_err env binary u (v :: vs) last0 e' he',
            ih lastU e (some e') hrest hlast' herr]

/-- C2: `try_urls` attempts the URLs strictly in list order; as soon as one
attempt succeeds it returns that URL paired with its content (bytes when
`binary` is true, the text otherwise), and no later URL is attempted — the
attempt trace is exactly the failing prefix followed by the first succeeding
URL. -/
theorem try_urls_first_success_spec (env : Env) (binary : Bool)
    (pre post : List String) (u : String) (r : Response)
    (hpre : ∀ v ∈ pre, ∃ e, env.net v = Except.error e)
    (hu : env.net u = Except.ok r) :
    try_urls env (pre ++ u :: post) binary =
      (pre ++ [u],
        Except.ok (u, if binary then Content.bytes r.content else Content.text r.text)) :=
  try_urls_go_first_success env binary u post r hu pre Option.none hpre

/-- Witness for C2 at a concrete environment: two failing URLs before a
succeeding third, with a fourth URL never attempted. -/
theorem try_urls_first_success_spec_witness :
    try_urls
        { net := fun u =>
            if u = "good" then Except.ok { text := "data", content := [7], json := Option.none }
            else Except.error (PyErr.httpError u),
          gunzip := fun _ => Except.error PyErr.gzipError,
          decodeUtf8Replace := fun _ => "" }
        ["bad1", "bad2", "good", "never"] false =
      (["bad1", "bad2", "good"], Except.ok ("good", Content.text "data")) := by
  have h := try_urls_first_success_spec
    { net := fun u =>
        if u = "good" then Except.ok { text := "data", content := [7], json := Option.none }
        else Except.error (PyErr.httpError u),
      gunzip := fun _ => Except.error PyErr.gzipError,
      decodeUtf8Replace := fun _ => "" }
    false ["bad1", "bad2"] ["never"] "good"
    { text := "data", content := [7], json := Option.none }
    (by intro v hv; fin_cases hv <;> exact ⟨_, rfl⟩)
    (by rfl)
  simpa using h

/-- C3: when every URL of a non-empty list fails, `try_urls` attempts them
all and raises the underlying error of the last attempted URL; on the empty
list it raises the generic `RuntimeError("No URLs tried")`. -/
theorem try_urls_all_fail_spec (env : Env) (binary : Bool) :
    (∀ (urls : List String) (lastU : String) (e : PyErr),
        (∀ v ∈ urls, ∃ e', env.net v = Except.error e') →
        urls.getLast? = some lastU → env.net lastU = Except.error e →
        try_urls env urls binary = (urls, Except.error e)) ∧
    try_urls env [] binary = ([], Except.error (PyErr.runtimeError "No URLs tried")) :=
  ⟨fun urls lastU e hfail hlast herr =>
      try_urls_go_all_fail env binary urls lastU e Option.none hfail hlast herr,
    rfl⟩

/-- Witness for C3 at a concrete environment where every URL fails. -/
theorem try_urls_all_fail_spec_witness :
    try_urls
        { net := fun u => Except.error (PyErr.httpError u),
          gunzip := fun _ => Except.error PyErr.gzipError,
          decodeUtf8Replace := fun _ => "" }
        ["a", "b", "c"] true =
      (["a", "b", "c"], Except.error (PyErr.httpError "c")) ∧
    try_urls
        { net := fun u => Except.error (PyErr.httpError u),
          gunzip := fun _ => Except.error PyErr.gzipError,
          decodeUtf8Replace := fun _ => "" }
        [] true =
      ([], Except.error (PyErr.runtimeError "No URLs tried")) := by
  constructor
  · exact (try_urls_all_fail_spec _ true).1 ["a", "b", "c"] "c" (PyErr.httpError "c")
      (fun v _ => ⟨PyErr.httpError v, rfl⟩) (by rfl) (by rfl)
  · exact (try_urls_all_fail_spec _ true).2

theorem cellAt_co2ReplaceRow (r : List Cell) (i : ℕ) :
    cellAt (co2ReplaceRow r) i = co2ReplaceCell (cellAt r i) := by
  unfold cellAt co2ReplaceRow
  induction r generalizing i with
  | nil => simp [co2ReplaceCell]
  | cons c cs ih =>
      cases i with
      | zero => simp
      | succ j => simpa using ih j

theorem co2Clean_append (xs ys : List (List Cell)) :
    co2Clean (xs ++ ys) = co2Clean xs ++ co2Clean ys := by
  unfold co2Clean
  rw [List.map_append, List.filter_append]

/-- C5: in the CO₂ fetcher, every row whose `average` (column 3) holds the
sentinel `-99.99` is turned into a missing value and dropped before the
latest-row selection: the selected latest row never has a NaN or sentinel
measurement, and a trailing sentinel row leaves the selection exactly as if
that row were absent. -/
theorem co2_sentinel_dropped_spec :
    (∀ (rows : List (List Cell)) (r : List Cell), co2Latest rows = some r →
        cellAt r 3 ≠ Cell.nan ∧ ∀ d : Dec, d.veq co2Sentinel = true → cellAt r 3 ≠ Cell.num d) ∧
    (∀ (rows : List (List Cell)) (h : rows ≠ []) (d : Dec), d.veq co2Sentinel = true →
        cellAt (rows.getLast h) 3 = Cell.num d →
        co2Latest rows = co2Latest rows.dropLast) := by
  constructor
  · intro rows r hr
    have hmem : r ∈ co2Clean rows := by
      obtain ⟨hne, hEq⟩ := List.mem_getLast?_eq_getLast (Option.mem_def.mpr hr)
      rw [hEq]
      exact List.getLast_mem hne
    unfold co2Clean at hmem
    obtain ⟨hmem', hcond⟩ := List.mem_filter.mp hmem
    have hnan : cellAt r 3 ≠ Cell.nan := by
      intro hc
      rw [hc] at hcond
      simp at hcond
    refine ⟨hnan, ?_⟩
    intro d hd hc
    obtain ⟨r0, _, hr0⟩ := List.mem_map.mp hmem'
    rw [← hr0, cellAt_co2ReplaceRow] at hc
    unfold co2ReplaceCell at hc
    cases h3 : cellAt r0 3 with
    | num d0 =>
        rw [h3] at hc
        by_cases hveq : d0.veq co2Sentinel
        · simp [hveq] at hc
        · simp [hveq] at hc
          cases hc
          exact hveq (by simpa using hd)
    | nan => rw [h3] at hc; simp at hc
    | str s => rw [h3] at hc; simp at hc
  · intro rows h d hd hlast
    have hsplit : rows.dropLast ++ [rows.getLast h] = rows := List.dropLast_append_getLast h
    have hdrop : co2Clean [rows.getLast h] = [] := by
      unfold co2Clean
      simp only [List.map_cons, List.map_nil, List.filter]
      rw [cellAt_co2ReplaceRow, hlast]
      simp [co2ReplaceCell, hd]
    unfold co2Latest
    conv_lhs => rw [← hsplit]
    rw [co2Clean_append, hdrop, List.append_nil]

/-- Witness for C5: a two-row frame whose last row holds `-99.99` in the
measurement column selects the first row as latest, exactly as if the
sentinel row were absent. -/
theorem co2_sentinel_dropped_spec_witness :
    co2Latest
        [[Cell.num ⟨2024, 0⟩, Cell.num ⟨11, 0⟩, Cell.num ⟨202487, 2⟩, Cell.num ⟨42436, 2⟩],
         [Cell.num ⟨2024, 0⟩, Cell.num ⟨12, 0⟩, Cell.num ⟨202495, 2⟩, Cell.num ⟨-9999, 2⟩]] =
      co2Latest
        [[Cell.num ⟨2024, 0⟩, Cell.num ⟨11, 0⟩, Cell.num ⟨202487, 2⟩, Cell.num ⟨42436, 2⟩]] ∧
    co2Latest
        [[Cell.num ⟨2024, 0⟩, Cell.num ⟨11, 0⟩, Cell.num ⟨202487, 2⟩, Cell.num ⟨42436, 2⟩],
         [Cell.num ⟨2024, 0⟩, Cell.num ⟨12, 0⟩, Cell.num ⟨202495, 2⟩, Cell.num ⟨-9999, 2⟩]] =
      some [Cell.num ⟨2024, 0⟩, Cell.num ⟨11, 0⟩, Cell.num ⟨202487, 2⟩, Cell.num ⟨42436, 2⟩] := by
  constructor
  · have h := co2_sentinel_dropped_spec.2
      [[Cell.num ⟨2024, 0⟩, Cell.num ⟨11, 0⟩, Cell.num ⟨202487, 2⟩, Cell.num ⟨42436, 2⟩],
       [Cell.num ⟨2024, 0⟩, Cell.num ⟨12, 0⟩, Cell.num ⟨202495, 2⟩, Cell.num ⟨-9999, 2⟩]]
      (by decide) ⟨-9999, 2⟩ (by decide) (by decide)
    simpa using h
  · decide

/-- C7: on a successfully downloaded and parsed warnings document, the
fetcher's count equals the number of items whose status is (case-
insensitively) "active" — all of them, not only the first three — and it
returns at most three titles, each the title of one of those active
items. -/
theorem warnings_active_count_spec (env : Env) (r : Response) (doc : WarnDoc)
    (items : List WarnItem) (hnet : env.net warnUrl = Except.ok r)
    (hjson : r.json = some doc) (hitems : doc.warnings = some items) :
    (fetch_met_eireann_warnings env).count =
        PyVal.int (items.filter warnIsActive).length ∧
    (fetch_met_eireann_warnings env).titles.length ≤ 3 ∧
    ∀ t ∈ (fetch_met_eireann_warnings env).titles,
      ∃ w ∈ items, warnIsActive w = true ∧ w.title = some t := by
  have hres : fetch_met_eireann_warnings env =
      { count := PyVal.int ((items.filter warnIsActive).length),
        titles := ((items.filter warnIsActive).filterMap warnTitle).take 3,
        source := warnSource } := by
    unfold fetch_met_eireann_warnings
    rw [hnet]
    simp only [hjson, hitems, Option.getD_some]
  rw [hres]
  refine ⟨rfl, ?_, ?_⟩
  · rw [List.length_take]
    exact Nat.min_le_left _ _
  · intro t ht
    have ht' : t ∈ (items.filter warnIsActive).filterMap warnTitle :=
      List.mem_of_mem_take ht
    obtain ⟨w, hw, htitle⟩ := List.mem_filterMap.mp ht'
    obtain ⟨hwmem, hact⟩ := List.mem_filter.mp hw
    refine ⟨w, hwmem, hact, ?_⟩
    unfold warnTitle at htitle
    cases hwt : w.title with
    | none => rw [hwt] at htitle; simp at htitle
    | some t0 =>
        rw [hwt] at htitle
        by_cases h0 : t0 == ""
        · simp [h0] at htitle
        · simp [h0] at htitle
          rw [htitle]

/-- Witness for C7: a document with four active items (one of them
untitled) and one inactive item yields count 4 and the first three
titles. -/
theorem warnings_active_count_spec_witness :
    (fetch_met_eireann_warnings
          { net := fun _ =>
              Except.ok
                { text := "", content := [],
                  json := some
                    { warnings := some
                        [{ status := some "active", title := some "Storm Warning" },
                         { status := some "Active", title := some "Flood Alert" },
                         { status := some "inactive", title := some "Old Warning" },
                         { status := some "active", title := Option.none },
                         { status := some "active", title := some "Wind Warning" }] } },
            gunzip := fun _ => Except.error PyErr.gzipError,
            decodeUtf8Replace := fun _ => "" }).count =
      PyVal.int
        ([{ status := some "active", title := some "Storm Warning" },
          { status := some "Active", title := some "Flood Alert" },
          { status := some "inactive", title := some "Old Warning" },
          { status := some "active", title := Option.none },
          { status := some "active", title := some "Wind Warning" }].filter warnIsActive).length ∧
    (fetch_met_eireann_warnings
          { net := fun _ =>
              Except.ok
                { text := "", content := [],
                  json := some
                    { warnings := some
                        [{ status := some "active", title := some "Storm Warning" },
                         { status := some "Active", title := some "Flood Alert" },
                         { status := some "inactive", title := some "Old Warning" },
                         { status := some "active", title := Option.none },
                         { status := some "active", title := some "Wind Warning" }] } },
            gunzip := fun _ => Except.error PyErr.gzipError,
            decodeUtf8Replace := fun _ => "" }).count = PyVal.int 4 := by
  constructor
  · exact (warnings_active_count_spec _ _ _ _ rfl rfl rfl).1
  · decide

theorem nsidcStartIdx_append (cs bs : List String)
    (hcs : ∀ ln ∈ cs, nsidcHdrMatch ln = false) (hne : bs ≠ [])
    (hhead : nsidcHdrMatch (bs.headD "") = true) :
    nsidcStartIdx (cs ++ bs) = cs.length := by
  obtain ⟨b, bs', rfl⟩ := List.exists_cons_of_ne_nil hne
  have hb : nsidcHdrMatch b = true := by simpa using hhead
  have hcs' : cs.findIdx? nsidcHdrMatch = Option.none :=
    List.findIdx?_eq_none_iff.mpr hcs
  unfold nsidcStartIdx
  rw [List.findIdx?_append, hcs', List.findIdx?_cons, hb]
  simp

theorem nsidcStartIdx_headMatch (bs : List String) (hne : bs ≠ [])
    (hhead : nsidcHdrMatch (bs.headD "") = true) :
    nsidcStartIdx bs = 0 := by
  obtain ⟨b, bs', rfl⟩ := List.exists_cons_of_ne_nil hne
  have hb : nsidcHdrMatch b = true := by simpa using hhead
  unfold nsidcStartIdx
  rw [List.findIdx?_cons, hb]
  rfl

/-- C6: the sea-ice CSV parser locates the header row by scanning for the
first line that begins (case-insensitively) with "year"/"yyyy", so any
number of non-matching comment lines before it — zero, one, or many — leaves
the parse unchanged; and whenever any of the four year/month/day/extent
columns cannot be resolved by the name heuristics (no column name starting
with "y", none starting with "m", none starting with "d", or none containing
"extent") the parse raises, which makes the enclosing candidate loop advance
to the next URL (the same advance happens for any failing attempt). -/
theorem nsidc_header_scan_and_extent_failover_spec :
    (∀ cs bs : List String, (∀ ln ∈ cs, nsidcHdrMatch ln = false) → bs ≠ [] →
        nsidcHdrMatch (bs.headD "") = true →
        nsidcStartIdx (cs ++ bs) = cs.length ∧
        parseNsidcLines (cs ++ bs) = parseNsidcLines bs) ∧
    (∀ lines : List String,
        ((∀ c ∈ nsidcColumns lines, pyStartsWith (pyLower c) "y" = false) ∨
          (∀ c ∈ nsidcColumns lines, pyStartsWith (pyLower c) "m" = false) ∨
          (∀ c ∈ nsidcColumns lines, pyStartsWith (pyLower c) "d" = false) ∨
          (∀ c ∈ nsidcColumns lines, strContainsSub (pyLower c) "extent" = false)) →
        ∃ e, parseNsidcLines lines = Except.error e) ∧
    (∀ (env : Env) (url text : String) (e : PyErr),
        nsidcDownload env url = Except.ok text →
        parse_nsidc_daily_csv text = Except.error e →
        attempt_nsidc env url = Except.error e) ∧
    (∀ (env : Env) (u : String) (rest : List String) (e : PyErr),
        attempt_nsidc env u = Except.error e →
        fetchLoop (attempt_nsidc env) nsidcPlaceholder (u :: rest) =
          fetchLoop (attempt_nsidc env) nsidcPlaceholder rest) := by
  refine ⟨?_, ?_, ?_, ?_⟩
  · intro cs bs hcs hne hhead
    have hidx := nsidcStartIdx_append cs bs hcs hne hhead
    refine ⟨hidx, ?_⟩
    unfold parseNsidcLines
    rw [hidx, List.drop_left, nsidcStartIdx_headMatch bs hne hhead, List.drop_zero]
  · intro lines hcols
    unfold parseNsidcLines
    cases hcsv : readCsvHeader (lines.drop (nsidcStartIdx lines)) with
    | error e => exact ⟨e, by simp only [hcsv]⟩
    | ok hr =>
        obtain ⟨header, rows⟩ := hr
        have hhdr : header = nsidcColumns lines := by
          unfold readCsvHeader at hcsv
          cases hbody : lines.drop (nsidcStartIdx lines) with
          | nil => rw [hbody] at hcsv; cases hcsv
          | cons l0 rest =>
              rw [hbody] at hcsv
              unfold nsidcColumns
              rw [hbody]
              simp only [List.headD_cons]
              by_cases hall : rest.all (fun ln => (splitFields ln).length ≤ (splitFields l0).length)
              · simp only [hall, if_true, Except.ok.injEq, Prod.mk.injEq] at hcsv
                exact hcsv.1.symm
              · simp only [hall, if_false] at hcsv
                cases hcsv
        refine ⟨PyErr.valueError "Unexpected NSIDC CSV columns", ?_⟩
        simp only [hcsv]
        rcases hcols with hc | hc | hc | hc
        · have hy : findColIdx (fun c => pyStartsWith (pyLower c) "y") header =
              Option.none := by
            unfold findColIdx
            exact List.findIdx?_eq_none_iff.mpr (by rw [hhdr]; exact hc)
          simp only [hy]
        · have hm : findColIdx (fun c => pyStartsWith (pyLower c) "m") header =
              Option.none := by
            unfold findColIdx
            exact List.findIdx?_eq_none_iff.mpr (by rw [hhdr]; exact hc)
          simp only [hm]
          all_goals
            cases findColIdx (fun c => pyStartsWith (pyLower c) "y") header <;>
              cases findColIdx (fun c => pyStartsWith (pyLower c) "d") header <;>
                cases findColIdx (fun c => strContainsSub (pyLower c) "extent") header <;> rfl
        · have hd : findColIdx (fun c => pyStartsWith (pyLower c) "d") header =
              Option.none := by
            unfold findColIdx
            exact List.findIdx?_eq_none_iff.mpr (by rw [hhdr]; exact hc)
          simp only [hd]
          all_goals
            cases findColIdx (fun c => pyStartsWith (pyLower c) "y") header <;>
              cases findColIdx (fun c => pyStartsWith (pyLower c) "m") header <;>
                cases findColIdx (fun c => strContainsSub (pyLower c) "extent") header <;> rfl
        · have he : findColIdx (fun c => strContainsSub (pyLower c) "extent") header =
              Option.none := by
            unfold findColIdx
            exact List.findIdx?_eq_none_iff.mpr (by rw [hhdr]; exact hc)
          simp only [he]
          all_goals
            cases findColIdx (fun c => pyStartsWith (pyLower c) "y") header <;>
              cases findColIdx (fun c => pyStartsWith (pyLower c) "m") header <;>
                cases findColIdx (fun c => pyStartsWith (pyLower c) "d") header <;> rfl
  · intro env url text e hdl hparse
    unfold attempt_nsidc
    simp only [hdl, hparse]
  · intro env u rest e h
    simp [fetchLoop, h]

/-- Witness for C6: two comment lines before the header leave the parse of a
concrete NSIDC CSV unchanged; a concrete CSV without an "extent" column
fails, as does one whose columns resolve no year/month/day. -/
theorem nsidc_header_scan_and_extent_failover_spec_witness :
    (nsidcStartIdx
        ["Some header", "Another header", "YYYY,MM,DD,Extent", "2024,12,1,12.5"] = 2 ∧
      parseNsidcLines
          ["Some header", "Another header", "YYYY,MM,DD,Extent", "2024,12,1,12.5"] =
        parseNsidcLines ["YYYY,MM,DD,Extent", "2024,12,1,12.5"]) ∧
    (∃ e, parseNsidcLines ["Year,Month,Value", "2024,12,12.5"] = Except.error e) ∧
    (∃ e, parseNsidcLines ["Extent,Count", "12.5,3"] = Except.error e) := by
  refine ⟨?_, ?_, ?_⟩
  · exact nsidc_header_scan_and_extent_failover_spec.1
      ["Some header", "Another header"] ["YYYY,MM,DD,Extent", "2024,12,1,12.5"]
      (by decide) (by decide) (by decide)
  · exact nsidc_header_scan_and_extent_failover_spec.2.1
      ["Year,Month,Value", "2024,12,12.5"]
      (Or.inr (Or.inr (Or.inr (by decide))))
  · exact nsidc_header_scan_and_extent_failover_spec.2.1
      ["Extent,Count", "12.5,3"]
      (Or.inl (by decide))

theorem attempt_nsidc_net_fail (env : Env) (u : String) (e : PyErr)
    (he : env.net u = Except.error e) : attempt_nsidc env u = Except.error e := by
  unfold attempt_nsidc nsidcDownload try_urls_result try_urls
  by_cases hgz : pyEndsWith u ".gz" <;>
    simp [hgz, try_urls_go, he]

theorem attempt_ohc_net_fail (env : Env) (u : String) (e : PyErr)
    (he : env.net u = Except.error e) : attempt_ohc env u = Except.error e := by
  unfold attempt_ohc try_urls_result try_urls
  simp [try_urls_go, he]

theorem fetchLoop_all_fail {α : Type} (attempt : String → Except PyErr α) (pl : α)
    (h : ∀ u, ∃ e, attempt u = Except.error e) :
    ∀ urls, fetchLoop attempt pl urls = pl := by
  intro urls
  induction urls with
  | nil => rfl
  | cons u rest ih =>
      obtain ⟨e, he⟩ := h u
      simp [fetchLoop, he, ih]

/-- C1 (amended): when every candidate URL / download attempt fails, the
warnings, sea-ice, ocean-heat and fires fetchers return exactly their
documented placeholder records and propagate no exception; the CO₂ fetcher,
which has no internal exception handling, instead propagates the underlying
error of its single URL to its caller (the orchestrator `main()` in
`build.py` performs the placeholder substitution for it). -/
theorem fetchers_placeholder_on_total_failure_spec (env : Env)
    (hfail : ∀ u, ∃ e, env.net u = Except.error e) :
    fetch_met_eireann_warnings env = warnPlaceholder ∧
    fetch_nsidc_arctic_daily env = nsidcPlaceholder ∧
    fetch_noaa_ncei_ohc_latest env = ohcPlaceholder ∧
    fetch_forest_fires_data env = firesPlaceholder ∧
    ∀ e, env.net co2DataUrl = Except.error e →
      fetch_noaa_co2_monthly env = Except.error e := by
  refine ⟨?_, ?_, ?_, ?_, ?_⟩
  · obtain ⟨e, he⟩ := hfail warnUrl
    unfold fetch_met_eireann_warnings
    rw [he]
  · exact fetchLoop_all_fail (attempt_nsidc env) nsidcPlaceholder
      (fun u => (hfail u).elim (fun e he => ⟨e, attempt_nsidc_net_fail env u e he⟩))
      nsidcCandidates
  · exact fetchLoop_all_fail (attempt_ohc env) ohcPlaceholder
      (fun u => (hfail u).elim (fun e he => ⟨e, attempt_ohc_net_fail env u e he⟩))
      ohcCandidates
  · obtain ⟨e, he⟩ := hfail firesUrl
    unfold fetch_forest_fires_data
    rw [he]
  · intro e he
    unfold fetch_noaa_co2_monthly
    rw [he]

/-- Witness for the amended C1 at the concrete all-failing environment. -/
theorem fetchers_placeholder_on_total_failure_spec_witness :
    fetch_met_eireann_warnings allFailEnv = warnPlaceholder ∧
    fetch_nsidc_arctic_daily allFailEnv = nsidcPlaceholder ∧
    fetch_noaa_ncei_ohc_latest allFailEnv = ohcPlaceholder ∧
    fetch_forest_fires_data allFailEnv = firesPlaceholder ∧
    fetch_noaa_co2_monthly allFailEnv = Except.error (PyErr.httpError "connection error") := by
  have h := fetchers_placeholder_on_total_failure_spec allFailEnv
    (fun _ => ⟨PyErr.httpError "connection error", rfl⟩)
  exact ⟨h.1, h.2.1, h.2.2.1, h.2.2.2.1, h.2.2.2.2 _ rfl⟩

/-- C1 counterexample: the claim "each of the five fetchers returns its
placeholder and never propagates" fails on the CO₂ fetcher — with every URL
failing it returns no record at all but raises the network error. -/
theorem co2_fetcher_propagates_counterexample :
    fetch_noaa_co2_monthly allFailEnv =
      Except.error (PyErr.httpError "connection error") ∧
    ∀ rec : Co2Rec, fetch_noaa_co2_monthly allFailEnv ≠ Except.ok rec := by
  refine ⟨rfl, ?_⟩
  intro rec h
  cases h

theorem fetchLoop_cases {α : Type} (attempt : String → Except PyErr α) (pl : α) :
    ∀ urls, fetchLoop attempt pl urls = pl ∨
      ∃ u r, attempt u = Except.ok r ∧ fetchLoop attempt pl urls = r := by
  intro urls
  induction urls with
  | nil => exact Or.inl rfl
  | cons u rest ih =>
      cases hu : attempt u with
      | ok r => exact Or.inr ⟨u, r, hu, by simp [fetchLoop, hu]⟩
      | error e =>
          have : fetchLoop attempt pl (u :: rest) = fetchLoop attempt pl rest := by
            simp [fetchLoop, hu]
          rw [this]
          exact ih

theorem attempt_ohc_ok_shape (env : Env) (u : String) (r : OhcRec)
    (h : attempt_ohc env u = Except.ok r) :
    (∃ n : ℤ, r.year = PyVal.int n) ∧ (∃ x, r.value = PyVal.float x) ∧
      r.units = "J × 10^22" ∧ r.source = ohcSource := by
  unfold attempt_ohc at h
  repeat' (first | (split at h) | (dsimp only at h))
  all_goals (try (cases h))
  all_goals exact ⟨⟨_, rfl⟩, ⟨_, rfl⟩, rfl, rfl⟩

theorem attempt_nsidc_ok_shape (env : Env) (u : String) (r : NsidcRec)
    (h : attempt_nsidc env u = Except.ok r) :
    (∃ y m d : ℤ, r.latest.date = nsidcDateStr y m d) ∧
      (∃ x, r.latest.extent_mkm2 = PyVal.float x) ∧
      r.chart = "arctic_extent_365d.png" ∧ r.source = nsidcSource := by
  unfold attempt_nsidc at h
  repeat' (first | (split at h) | (dsimp only at h))
  all_goals (try (cases h))
  all_goals exact ⟨⟨_, _, _, rfl⟩, ⟨_, rfl⟩, rfl, rfl⟩

/-- C9: every record a fetcher returns is either fully populated (a numeric
year/value/count/extent, the fixed units, chart name and canonical source
URL) or exactly the single uniform placeholder of its source — never a
partial mixture; the canonical source URL is the same in both cases. -/
theorem records_full_or_placeholder_spec (env : Env) :
    (((∃ n : ℤ, (fetch_noaa_ncei_ohc_latest env).year = PyVal.int n) ∧
        (∃ x, (fetch_noaa_ncei_ohc_latest env).value = PyVal.float x) ∧
        (fetch_noaa_ncei_ohc_latest env).units = "J × 10^22" ∧
        (fetch_noaa_ncei_ohc_latest env).source = ohcSource) ∨
      fetch_noaa_ncei_ohc_latest env = ohcPlaceholder) ∧
    (((∃ n : ℕ, (fetch_forest_fires_data env).count = PyVal.int n) ∧
        (fetch_forest_fires_data env).description =
          "Active fires detected by VIIRS satellite in last 24 hours" ∧
        (fetch_forest_fires_data env).source = firesSource) ∨
      fetch_forest_fires_data env = firesPlaceholder) ∧
    (((∃ y m d : ℤ, (fetch_nsidc_arctic_daily env).latest.date = nsidcDateStr y m d) ∧
        (∃ x, (fetch_nsidc_arctic_daily env).latest.extent_mkm2 = PyVal.float x) ∧
        (fetch_nsidc_arctic_daily env).chart = "arctic_extent_365d.png" ∧
        (fetch_nsidc_arctic_daily env).source = nsidcSource) ∨
      fetch_nsidc_arctic_daily env = nsidcPlaceholder) ∧
    (((∃ n : ℕ, (fetch_met_eireann_warnings env).count = PyVal.int n) ∧
        (fetch_met_eireann_warnings env).source = warnSource) ∨
      fetch_met_eireann_warnings env = warnPlaceholder) ∧
    (∀ rec : Co2Rec, fetch_noaa_co2_monthly env = Except.ok rec →
      (∃ n : ℤ, rec.year = PyVal.int n) ∧ (∃ m : ℤ, rec.month = PyVal.int m) ∧
        (∃ x, rec.ppm = PyVal.float x) ∧ rec.chart = "co2_24mo.png" ∧
        rec.source = co2Source) := by
  refine ⟨?_, ?_, ?_, ?_, ?_⟩
  · rcases fetchLoop_cases (attempt_ohc env) ohcPlaceholder ohcCandidates with h | ⟨u, r, hok, hr⟩
    · exact Or.inr h
    · unfold fetch_noaa_ncei_ohc_latest
      rw [hr]
      exact Or.inl (attempt_ohc_ok_shape env u r hok)
  · unfold fetch_forest_fires_data
    cases hnet : env.net firesUrl with
    | error e => exact Or.inr rfl
    | ok r => exact Or.inl ⟨⟨_, rfl⟩, rfl, rfl⟩
  · rcases fetchLoop_cases (attempt_nsidc env) nsidcPlaceholder nsidcCandidates with h | ⟨u, r, hok, hr⟩
    · exact Or.inr h
    · unfold fetch_nsidc_arctic_daily
      rw [hr]
      exact Or.inl (attempt_nsidc_ok_shape env u r hok)
  · cases hnet : env.net warnUrl with
    | error e =>
        refine Or.inr ?_
        unfold fetch_met_eireann_warnings
        rw [hnet]
    | ok r =>
        cases hjson : r.json with
        | none =>
            refine Or.inr ?_
            unfold fetch_met_eireann_warnings
            rw [hnet]
            simp only [hjson]
        | some doc =>
            refine Or.inl ?_
            have hres : fetch_met_eireann_warnings env =
                { count := PyVal.int ((doc.warnings.getD []).filter warnIsActive).length,
                  titles :=
                    (((doc.warnings.getD []).filter warnIsActive).filterMap warnTitle).take 3,
                  source := warnSource } := by
              unfold fetch_met_eireann_warnings
              rw [hnet]
              simp only [hjson]
            rw [hres]
            exact ⟨⟨_, rfl⟩, rfl⟩
  · intro rec h
    unfold fetch_noaa_co2_monthly at h
    repeat' (first | (split at h) | (dsimp only at h))
    all_goals (try (cases h))
    all_goals exact ⟨⟨_, rfl⟩, ⟨_, rfl⟩, ⟨_, rfl⟩, rfl, rfl⟩

/-- C10: `fmt_num` is total (it is a Lean function, so it returns a string on
every `PyVal` and never raises): `None`, float NaN, and any string not
convertible to float yield the default string; integers are rendered without
decimal places; every other float (and every float-convertible string) is
rendered in fixed-point with `nd` decimal places. -/
theorem fmt_num_total_spec (nd : ℕ) (d : String) :
    fmt_num PyVal.none nd d = d ∧
    fmt_num (PyVal.float PyFloat.nan) nd d = d ∧
    (∀ s, pyFloatOfString s = Option.none → fmt_num (PyVal.str s) nd d = d) ∧
    (∀ n : ℤ, fmt_num (PyVal.int n) nd d = toString n) ∧
    (∀ x, x ≠ PyFloat.nan → fmt_num (PyVal.float x) nd d = formatFloatFixed x nd) ∧
    (∀ s x, pyFloatOfString s = some x → fmt_num (PyVal.str s) nd d = formatFloatFixed x nd) := by
  refine ⟨rfl, rfl, ?_, fun n => rfl, ?_, ?_⟩
  · intro s h
    simp [fmt_num, h]
  · intro x hx
    cases x with
    | nan => exact absurd rfl hx
    | inf neg => rfl
    | val q => rfl
  · intro s x h
    simp [fmt_num, h]

/-- Witness for C10 at concrete inputs: a non-convertible string maps to the
default, an integer is rendered without decimals, a convertible string is
rendered with two decimals. -/
theorem fmt_num_total_spec_witness :
    fmt_num (PyVal.str "N/A") 2 "x" = "x" ∧
    fmt_num (PyVal.int 42) 2 "x" = "42" ∧
    fmt_num (PyVal.str "42.5") 2 "x" = "42.50" := by
  refine ⟨(fmt_num_total_spec 2 "x").2.2.1 "N/A" (by decide), ?_, ?_⟩
  · exact ((fmt_num_total_spec 2 "x").2.2.2.1 42).trans (by decide)
  · exact ((fmt_num_total_spec 2 "x").2.2.2.2.2 "42.5" (PyFloat.val ⟨425, 1⟩)
      (by decide)).trans (by decide)

theorem pyStrList_map_wrap (l : List String) :
    pyStrList (l.map (fun t => PyObj.val (PyVal.str t))) = Except.ok l := by
  induction l with
  | nil => rfl
  | cons t ts ih => simp [pyStrList, ih, Except.map]

theorem warnTitlesStr_ok (w : WarnRec) :
    ∃ s, warnTitlesStr (warnObj w) = Except.ok s := by
  cases hts : w.titles with
  | nil =>
      refine ⟨"—", ?_⟩
      unfold warnTitlesStr warnObj
      rw [hts]
      rfl
  | cons t ts =>
      have hj : pyJoin ", " (PyObj.list (List.map (fun x => PyObj.val (PyVal.str x)) (t :: ts))) =
          Except.ok (pyJoinList ", " (t :: ts)) := by
        calc pyJoin ", " (PyObj.list (List.map (fun x => PyObj.val (PyVal.str x)) (t :: ts)))
            = (match pyStrList (List.map (fun x => PyObj.val (PyVal.str x)) (t :: ts)) with
               | Except.ok parts => Except.ok (pyJoinList ", " parts)
               | Except.error e => Except.error e) := rfl
          _ = Except.ok (pyJoinList ", " (t :: ts)) := by
              rw [pyStrList_map_wrap]
      refine ⟨if pyJoinList ", " (t :: ts) == "" then "—" else pyJoinList ", " (t :: ts), ?_⟩
      calc warnTitlesStr (warnObj w)
          = Except.bind
              (pyJoin ", " (PyObj.list (List.map (fun x => PyObj.val (PyVal.str x)) (t :: ts))))
              (fun joined => pure (if joined == "" then "—" else joined)) := by
            unfold warnTitlesStr warnObj
            rw [hts]
            rfl
        _ = Except.bind (Except.ok (pyJoinList ", " (t :: ts)))
              (fun joined => pure (if joined == "" then "—" else joined)) := by
            rw [hj]
        _ = Except.ok (if pyJoinList ", " (t :: ts) == "" then "—"
              else pyJoinList ", " (t :: ts)) := rfl

set_option maxRecDepth 100000 in
theorem build_simple_tiles_ok (c : Co2Rec) (w : WarnRec) (d : DublinRec)
    (n : NsidcRec) (o : OhcRec) (f : FiresRec) :
    ∃ s, build_simple_tiles (ctxObj c w d n o f) = Except.ok s :=
  ⟨_, rfl⟩

set_option maxRecDepth 100000 in
theorem build_details_tiles_ok (c : Co2Rec) (w : WarnRec) (d : DublinRec)
    (n : NsidcRec) (o : OhcRec) (f : FiresRec) :
    ∃ s, build_details_tiles (ctxObj c w d n o f) = Except.ok s := by
  obtain ⟨ts, hw⟩ := warnTitlesStr_ok w
  have h1 : build_details_tiles (ctxObj c w d n o f) =
      Except.bind (warnTitlesStr (warnObj w))
        (fun tstr =>
          detailsRest (co2Obj c) (warnObj w) (dublinObj d) (nsidcObj n) (ohcObj o)
            (firesObj f) tstr) := rfl
  rw [h1, hw]
  exact ⟨_, rfl⟩

/-- C8: applied to an aggregate in which every record is either fully
populated or the documented placeholder of its source, both tile renderers
return an HTML string and raise nothing. -/
theorem render_tolerates_placeholders_spec (octx : PyObj)
    (h : ∃ c w d n o f, octx = ctxObj c w d n o f ∧ co2RecValid c ∧ warnRecValid w ∧
        d = fetch_psmsl_dublin_note ∧ nsidcRecValid n ∧ ohcRecValid o ∧ firesRecValid f) :
    ∃ s₁ s₂, build_simple_tiles octx = Except.ok s₁ ∧
      build_details_tiles octx = Except.ok s₂ := by
  obtain ⟨c, w, d, n, o, f, rfl, -, -, -, -, -, -⟩ := h
  obtain ⟨s₁, h₁⟩ := build_simple_tiles_ok c w d n o f
  obtain ⟨s₂, h₂⟩ := build_details_tiles_ok c w d n o f
  exact ⟨s₁, s₂, h₁, h₂⟩

set_option maxRecDepth 100000 in
/-- Witness for C8: the all-placeholder aggregate renders. -/
theorem render_tolerates_placeholders_spec_witness :
    ∃ s₁ s₂,
      build_simple_tiles
          (ctxObj co2Placeholder warnPlaceholder fetch_psmsl_dublin_note
            nsidcPlaceholder ohcPlaceholder firesPlaceholder) = Except.ok s₁ ∧
      build_details_tiles
          (ctxObj co2Placeholder warnPlaceholder fetch_psmsl_dublin_note
            nsidcPlaceholder ohcPlaceholder firesPlaceholder) = Except.ok s₂ :=
  render_tolerates_placeholders_spec _
    ⟨co2Placeholder, warnPlaceholder, fetch_psmsl_dublin_note, nsidcPlaceholder,
      ohcPlaceholder, firesPlaceholder, rfl, Or.inr rfl, Or.inr rfl, rfl,
      Or.inr rfl, Or.inr rfl, Or.inr rfl⟩

set_option maxRecDepth 100000 in
/-- C4 counterexample: rendering the ocean-heat record
`{year: 2023, value: 15.2, units: "J × 10^22"}` produces HTML that does NOT
contain the substring `"15.20"` — the renderer interpolates the value with
`str()`, not with the two-decimal `fmt_num` formatting. -/
theorem ohc_render_two_decimals_counterexample :
    ∃ s, build_details_tiles ctx4 = Except.ok s ∧
      strContainsSub s "15.20" = false ∧ strContainsSub s "2023" = true :=
  ⟨_, rfl, by decide, by decide⟩

set_option maxRecDepth 100000 in
/-- C4 (amended): rendering the ocean-heat record
`{year: 2023, value: 15.2, units: "J × 10^22"}` reproduces its fields in the
output HTML via Python `str()` conversion: the output contains the
substrings `"15.2 J × 10^22"` and `"2023"` (no two-decimal zero-padding is
applied to the value). -/
theorem ohc_render_str_roundtrip_spec :
    ∃ s, build_details_tiles ctx4 = Except.ok s ∧
      strContainsSub s "15.2 J × 10^22" = true ∧
      strContainsSub s "Latest year: 2023" = true :=
  ⟨_, rfl, by decide, by decide⟩


end Climate

